import Mathlib

/-!
Verification development for the grpc_demo library service.

The definitions below are a shallow embedding of the Go sources under
`server/` (the relational, PostgreSQL-backed variant, which the design
documents treat as authoritative).  The `books` table (`id TEXT PRIMARY
KEY, title, author`) is modelled as a list of `Book` rows; the SQL
statements used by the handlers are modelled by their semantics on that
list (`EXISTS` = `List.any`, `INSERT` = append, `UPDATE ... WHERE` =
`List.map`, `DELETE ... WHERE` = `List.filter`, `ORDER BY id LIMIT n
OFFSET k` = sort-by-id then drop/take).  The `users` table (`id SERIAL
PRIMARY KEY, username TEXT UNIQUE, password_hash`) is a list of `User`
rows.  bcrypt is opaque one-way hashing and is modelled by an abstract
`verify : digest → password → Bool` parameter.  JWTs are modelled
symbolically: a parsed token records its header algorithm, its claims,
and the key its MAC was produced with; signature verification succeeds
exactly when that key equals the server's secret, and an unparseable
token string is `Option.none`.
-/

/-- A row of the `books` table / the protobuf `Book` message
(`id TEXT PRIMARY KEY, title TEXT, author TEXT`). -/
structure Book where
  id : String
  title : String
  author : String
deriving DecidableEq, Repr

/-- The protobuf `BookResponse` message: `{id, message}`. -/
structure BookResponse where
  id : String
  message : String
deriving DecidableEq, Repr

/-- The `books` table, as the list of its rows. -/
abbrev BookStore := List Book

/-- `SELECT EXISTS(SELECT 1 FROM books WHERE id=$1)` (server.go, AddBook
and BatchAddBooks). -/
def booksExists (store : BookStore) (id : String) : Bool :=
  store.any (fun b => b.id == id)

/-- `SELECT ... FROM books WHERE id=$1`, returning the first matching
row. -/
def findBook (store : BookStore) (id : String) : Option Book :=
  store.find? (fun b => b.id == id)

/-- `AddBook` handler (server.go lines 77-95): reject an empty id,
reject a duplicate id, otherwise insert the row.  Returns the store
after the call and the `BookResponse` sent to the caller. -/
def AddBook (store : BookStore) (book : Book) : BookStore × BookResponse :=
  if book.id = "" then
    (store, ⟨"", "Book ID is required"⟩)
  else if booksExists store book.id then
    (store, ⟨book.id, "Book already exists"⟩)
  else
    (store ++ [book], ⟨book.id, "Book added successfully"⟩)

/-- `UpdateBook` handler (server.go lines 97-109): reject an empty id,
run `UPDATE books SET title=$1, author=$2 WHERE id=$3`, and report
"not found" when `RowsAffected() == 0`. -/
def UpdateBook (store : BookStore) (book : Book) : BookStore × BookResponse :=
  if book.id = "" then
    (store, ⟨"", "Book ID is required"⟩)
  else
    let updated := store.map (fun b =>
      if b.id = book.id then { b with title := book.title, author := book.author } else b)
    let rowsAffected := (store.filter (fun b => b.id == book.id)).length
    if rowsAffected = 0 then
      (updated, ⟨book.id, "Book not found"⟩)
    else
      (updated, ⟨book.id, "Book updated successfully"⟩)

/-- `DeleteBook` handler (server.go lines 111-123): reject an empty id,
run `DELETE FROM books WHERE id=$1`, and report "not found" when
`RowsAffected() == 0`. -/
def DeleteBook (store : BookStore) (id : String) : BookStore × BookResponse :=
  if id = "" then
    (store, ⟨"", "Book ID is required"⟩)
  else
    let remaining := store.filter (fun b => !(b.id == id))
    let rowsAffected := (store.filter (fun b => b.id == id)).length
    if rowsAffected = 0 then
      (remaining, ⟨id, "Book not found"⟩)
    else
      (remaining, ⟨id, "Book deleted successfully"⟩)

/-- Byte-wise lexicographic comparison on character lists, the order the
database's `ORDER BY id` uses on the `TEXT` key column. -/
def charsLe : List Char → List Char → Bool
  | [], _ => true
  | _ :: _, [] => false
  | a :: as, b :: bs => if a < b then true else if b < a then false else charsLe as bs

/-- Lexicographic comparison on strings. -/
def strLe (a b : String) : Bool :=
  charsLe a.data b.data

/-- Ascending order on book ids, as a proposition. -/
def bookIdLe (a b : Book) : Prop :=
  strLe a.id b.id = true

instance : DecidableRel bookIdLe :=
  fun a b => instDecidableEqBool (strLe a.id b.id) true

/-- `ORDER BY id` over the whole table. -/
def sortById (store : BookStore) : List Book :=
  List.insertionSort (fun a b => bookIdLe a b) store

/-- The protobuf `ListBookResponse` message: `{books, totalCount}`. -/
structure ListBookResponse where
  books : List Book
  totalCount : Nat
deriving DecidableEq, Repr

/-- Two's-complement wrap of an integer into the `int32` range
`[-2147483648, 2147483647]`: the value Go's `int32` arithmetic yields
for an overflowing expression. -/
def wrap32 (n : Int) : Int :=
  (n + 2147483648) % 4294967296 - 2147483648

/-- `ListBooks` handler (server.go lines 125-156): `page` and
`pageSize` are `int32` request fields.  The handler normalizes
`page < 1` to `1` and `pageSize < 1` to `10`, computes
`offset := (page - 1) * pageSize` in Go `int32` arithmetic — the
subtraction and the product each wrap — and runs `SELECT id, title,
author FROM books ORDER BY id LIMIT pageSize OFFSET offset` paired with
`SELECT COUNT(*) FROM books`.  Postgres rejects a negative `OFFSET`
("OFFSET must not be negative"), which the handler propagates as a
call-level error (`return nil, err`); a non-negative offset serves the
slice starting there. -/
def ListBooks (store : BookStore) (page pageSize : Int) :
    Except String ListBookResponse :=
  let page := if page < 1 then 1 else page
  let pageSize := if pageSize < 1 then 10 else pageSize
  let offset := wrap32 (wrap32 (page - 1) * pageSize)
  if offset < 0 then
    .error "OFFSET must not be negative"
  else
    .ok { books := (((sortById store).drop offset.toNat).take pageSize.toNat)
        , totalCount := store.length }

/-- How the client-side stream of a `BatchAddBooks` call ends after its
items: a clean end-of-input, or a transport-level read failure. -/
inductive StreamEnd
  | eof
  | readError (msg : String)
deriving DecidableEq, Repr

/-- The receive loop of the `BatchAddBooks` handler (server.go lines
158-190): `acc` is the `responses` slice accumulated so far; each
received book goes through the empty-id check, the duplicate check, and
the insert; `io.EOF` sends the accumulated list via `SendAndClose`; any
other receive error aborts the call with an `Internal` status, modelled
as `Except.error`. -/
def batchLoop : BookStore → List BookResponse → List Book → StreamEnd →
    BookStore × Except String (List BookResponse)
  | store, acc, [], .eof => (store, .ok acc)
  | store, acc, [], .readError m => (store, .error ("failed to receive book: " ++ m))
  | store, acc, book :: rest, fin =>
    if book.id = "" then
      batchLoop store (acc ++ [⟨"", "Book ID is required"⟩]) rest fin
    else if booksExists store book.id then
      batchLoop store (acc ++ [⟨book.id, "Book already exists"⟩]) rest fin
    else
      batchLoop (store ++ [book]) (acc ++ [⟨book.id, "Book added successfully"⟩]) rest fin

/-- `BatchAddBooks` handler: run the receive loop with an empty
`responses` slice. -/
def BatchAddBooks (store : BookStore) (items : List Book) (fin : StreamEnd) :
    BookStore × Except String (List BookResponse) :=
  batchLoop store [] items fin

/-- Sequential application of the `AddBook` rules to a list of items,
collecting one response per item in order.  Used to state that the batch
loop treats each streamed item exactly as `AddBook` would. -/
def addBooksFold : BookStore → List Book → BookStore × List BookResponse
  | store, [] => (store, [])
  | store, book :: rest =>
    let step := AddBook store book
    let tail := addBooksFold step.1 rest
    (tail.1, step.2 :: tail.2)

/-- A row of the `users` table (`id SERIAL PRIMARY KEY, username TEXT
UNIQUE NOT NULL, password_hash TEXT NOT NULL`). -/
structure User where
  id : Int
  username : String
  passwordHash : String
deriving DecidableEq, Repr

/-- The `users` table, as the list of its rows. -/
abbrev UserStore := List User

/-- The protobuf `AuthResponse` message: `{token, message}`.  Proto3
leaves an unset string field at `""`. -/
structure AuthResponse where
  token : String
  message : String
deriving DecidableEq, Repr

/-- `SELECT password_hash FROM users WHERE username=$1`, returning the
first matching row (usernames are unique in the schema). -/
def findUserByUsername (users : UserStore) (username : String) : Option User :=
  users.find? (fun u => u.username == username)

/-- `Login` handler (server.go lines 56-75): look the username up; on a
missing row or a failed bcrypt comparison answer the fixed
"Invalid username or password" message; on success answer
"Login successful" with the literal token `"dummy_token"`.  `verify`
stands for `bcrypt.CompareHashAndPassword` succeeding.  The handler
performs no database write. -/
def Login (verify : String → String → Bool) (users : UserStore)
    (username password : String) : AuthResponse :=
  match findUserByUsername users username with
  | none => ⟨"", "Invalid username or password"⟩
  | some u =>
    if verify u.passwordHash password then
      ⟨"dummy_token", "Login successful"⟩
    else
      ⟨"", "Invalid username or password"⟩

/-- Symbolic JWT header algorithm (`alg`). -/
inductive Alg
  | HS256
  | HS384
  | HS512
  | RS256
  | ES256
deriving DecidableEq, Repr

/-- Whether the algorithm is in the HMAC family, the class the key
function of `ValidateJWT` accepts (auth.go line 72). -/
def Alg.isHMAC : Alg → Bool
  | .HS256 => true
  | .HS384 => true
  | .HS512 => true
  | _ => false

/-- The JWT claims minted by the service (auth.go `Claims`): the custom
`user_id`/`username` fields plus the registered claims it sets. -/
structure Claims where
  userID : Int
  username : String
  expiresAt : Int
  issuedAt : Int
  notBefore : Int
  issuer : String
  subject : String
deriving DecidableEq, Repr

/-- A structurally parseable signed token, symbolically: its header
algorithm, its claims, and the key its MAC was actually produced with.
MAC verification against a key `k` succeeds exactly when `sigKey = k`.
An unparseable token string is modelled as `Option.none` upstream. -/
structure Token where
  alg : Alg
  claims : Claims
  sigKey : String
deriving DecidableEq, Repr

/-- The compiled-in fallback secret of `getJWTSecret` (auth.go line
41). -/
def jwtSecretDefault : String :=
  "your-super-secure-secret-key-change-this-in-production"

/-- `getJWTSecret` (auth.go lines 38-44): the `JWT_SECRET` environment
value, or the fallback when it is unset (Go's `os.Getenv` yields `""`
then). -/
def getJWTSecret (env : String) : String :=
  if env = "" then jwtSecretDefault else env

/-- `GenerateJWT` (auth.go lines 47-64): mint an HS256 token for the
subject, expiring 24 hours after `now`, signed with the server's
secret.  Times are unix seconds. -/
def GenerateJWT (secret : String) (now : Int) (userID : Int) (username : String) : Token :=
  { alg := .HS256
  , claims :=
    { userID := userID
    , username := username
    , expiresAt := now + 24 * 60 * 60
    , issuedAt := now
    , notBefore := now
    , issuer := "library-service"
    , subject := toString userID }
  , sigKey := secret }

/-- The typed failures of token validation. -/
inductive JWTError
  | malformed
  | badAlg
  | badSignature
  | expired
  | notYetValid
deriving DecidableEq, Repr

/-- `ValidateJWT` (auth.go lines 67-87), mirroring Go's two return
values `(*Claims, error)`: an unparseable string fails; a non-HMAC
header algorithm is refused by the key function; a MAC made with a
different key fails signature verification; the jwt/v5 parser then
enforces `exp` (fails once `now ≥ exp`) and `nbf`.  Every failure
returns no claims. -/
def ValidateJWT (secret : String) (now : Int) (tok : Option Token) :
    Option Claims × Option JWTError :=
  match tok with
  | none => (none, some .malformed)
  | some t =>
    if !t.alg.isHMAC then (none, some .badAlg)
    else if t.sigKey ≠ secret then (none, some .badSignature)
    else if t.claims.expiresAt ≤ now then (none, some .expired)
    else if now < t.claims.notBefore then (none, some .notYetValid)
    else (some t.claims, none)

/-- Incoming gRPC call metadata: a multimap of entries.  A call may
carry no metadata at all (`Option.none` upstream). -/
structure Metadata where
  pairs : List (String × String)
deriving Repr

/-- `md.Get(key)`: all values stored under a key, in order. -/
def Metadata.get (md : Metadata) (key : String) : List String :=
  (md.pairs.filter (fun p => p.1 == key)).map (fun p => p.2)

/-- `extractTokenFromMetadata` (auth.go lines 90-107): require metadata,
require an `authorization` entry, require its first value to start with
the 7 characters `"Bearer "`, and return the rest of that value. -/
def extractTokenFromMetadata (md : Option Metadata) : Except String String :=
  match md with
  | none => .error "no metadata found"
  | some m =>
    match m.get "authorization" with
    | [] => .error "no authorization header"
    | h :: _ =>
      if h.length < 7 ∨ h.take 7 ≠ "Bearer " then
        .error "invalid authorization header format"
      else
        .ok (h.drop 7)

/-- `SELECT id, username FROM users WHERE id=$1 AND username=$2`,
returning the first matching row. -/
def findUserByIdAndUsername (users : UserStore) (id : Int) (username : String) : Option User :=
  users.find? (fun u => u.id == id && u.username == username)

/-- `validateUserExistsInDB` (auth.go lines 110-125): query the row by
id and username; a missing row fails; a returned row is double-checked
against the queried pair before reporting success. -/
def validateUserExistsInDB (users : UserStore) (userID : Int) (username : String) :
    Except String Unit :=
  match findUserByIdAndUsername users userID username with
  | none => .error "user not found in database"
  | some u =>
    if u.id ≠ userID ∨ u.username ≠ username then
      .error "user data mismatch"
    else
      .ok ()

/-- The validate-then-revalidate step shared by the unary and stream
interceptors (auth.go lines 140-149 and 170-179): run `ValidateJWT`,
then `validateUserExistsInDB` on the claims; any failure is surfaced as
an `Unauthenticated` status, modelled as `Except.error`. -/
def interceptorAuthStep (users : UserStore) (secret : String) (now : Int)
    (tok : Option Token) : Except String Claims :=
  match ValidateJWT secret now tok with
  | (_, some _) => .error "invalid token"
  | (none, none) => .error "invalid token"
  | (some c, none) =>
    match validateUserExistsInDB users c.userID c.username with
    | .error e => .error ("user validation failed: " ++ e)
    | .ok _ => .ok c

/-- The RPC surface of the two services. -/
inductive Method
  | register
  | login
  | addBook
  | updateBook
  | deleteBook
  | listBooks
  | batchAddBooks
deriving DecidableEq, Repr

/-- `info.FullMethod` for each RPC, as gRPC forms it from the proto
package and service names. -/
def Method.fullMethod : Method → String
  | .register => "/library.UserService/Register"
  | .login => "/library.UserService/Login"
  | .addBook => "/library.LibraryService/AddBook"
  | .updateBook => "/library.LibraryService/UpdateBook"
  | .deleteBook => "/library.LibraryService/DeleteBook"
  | .listBooks => "/library.LibraryService/ListBooks"
  | .batchAddBooks => "/library.LibraryService/BatchAddBooks"

/-- The unary interceptor returned by `CreateAuthInterceptor` (auth.go
lines 128-157): pass `Register` and `Login` through untouched; otherwise
extract the bearer token, validate it, revalidate the subject against
the users table, and only then let the handler run with the injected
identity.  `.ok idty` means the handler is invoked (with the verified
`(userID, username)` attached when `idty` is `some`); `.error` means the
call is rejected with an `Unauthenticated` status and the handler never
runs.  `parseToken` stands for the jwt library's decoding of a token
string. -/
def CreateAuthInterceptor (parseToken : String → Option Token) (users : UserStore)
    (secret : String) (now : Int) (method : Method) (md : Option Metadata) :
    Except String (Option (Int × String)) :=
  if method.fullMethod = "/library.UserService/Register" ∨
      method.fullMethod = "/library.UserService/Login" then
    .ok none
  else
    match extractTokenFromMetadata md with
    | .error e => .error ("authentication failed: " ++ e)
    | .ok tokStr =>
      match interceptorAuthStep users secret now (parseToken tokStr) with
      | .error e => .error e
      | .ok c => .ok (some (c.userID, c.username))

/-- The server wiring in `main` (server.go lines 218-220): the gRPC
server is constructed by `grpc.NewServer()` with no interceptor option,
so dispatching a call applies no interceptor at all — the handler runs
directly, whatever the method and metadata are. -/
def mainServerDispatch {α : Type} (method : Method) (md : Option Metadata)
    (handler : Unit → α) : α :=
  handler ()

/-- Out-of-band administrative deletion of a user row:
`DELETE FROM users WHERE id=$1 AND username=$2`. -/
def deleteUserRow (users : UserStore) (id : Int) (username : String) : UserStore :=
  users.filter (fun u => !(u.id == id && u.username == username))

/-- A concrete book for concrete evaluations. -/
def bAlpha : Book := ⟨"b1", "Title", "Author"⟩

/-- The same id as `bAlpha` with different title and author. -/
def bAlphaPrime : Book := ⟨"b1", "Other title", "Other author"⟩

/-- A concrete twelve-row book table, in scrambled insertion order. -/
def books12 : BookStore :=
  [⟨"07", "t7", "a7"⟩, ⟨"03", "t3", "a3"⟩, ⟨"11", "t11", "a11"⟩, ⟨"01", "t1", "a1"⟩,
   ⟨"09", "t9", "a9"⟩, ⟨"05", "t5", "a5"⟩, ⟨"12", "t12", "a12"⟩, ⟨"02", "t2", "a2"⟩,
   ⟨"10", "t10", "a10"⟩, ⟨"04", "t4", "a4"⟩, ⟨"08", "t8", "a8"⟩, ⟨"06", "t6", "a6"⟩]

/-- A bcrypt test double for concrete evaluations: the stored digest
verifies against exactly the password it equals. -/
def verifyEq : String → String → Bool :=
  fun digest password => digest == password

/-- A concrete two-row users table (digests chosen for `verifyEq`). -/
def usersAliceBob : UserStore :=
  [⟨1, "alice", "secret1"⟩, ⟨2, "bob", "secret2"⟩]

/-- A concrete well-formed token for `alice`, minted at time 0 with the
server's secret. -/
def tokAlice : Token :=
  GenerateJWT jwtSecretDefault 0 1 "alice"

/-- A concrete token minted with a key that is not the server's. -/
def tokForged : Token :=
  GenerateJWT "wrong-secret-key" 0 1 "alice"

/-- A concrete token whose header algorithm is outside the HMAC
family. -/
def tokBadAlg : Token :=
  { alg := .RS256, claims := (GenerateJWT jwtSecretDefault 0 1 "alice").claims
  , sigKey := jwtSecretDefault }

theorem charsLe_total : ∀ a b : List Char, charsLe a b = true ∨ charsLe b a = true
  | [], _ => Or.inl rfl
  | _ :: _, [] => Or.inr rfl
  | a :: as, b :: bs => by
    by_cases hab : a < b
    · left
      simp [charsLe, hab]
    · by_cases hba : b < a
      · right
        simp [charsLe, hba]
      · rcases charsLe_total as bs with h | h
        · left
          simp [charsLe, hab, hba, h]
        · right
          simp [charsLe, hab, hba, h]

theorem charsLe_trans : ∀ a b c : List Char,
    charsLe a b = true → charsLe b c = true → charsLe a c = true
  | [], _, _, _, _ => rfl
  | _ :: _, [], _, h1, _ => by simp [charsLe] at h1
  | _ :: _, _ :: _, [], _, h2 => by simp [charsLe] at h2
  | a :: as, b :: bs, c :: cs, h1, h2 => by
    by_cases hab : a < b
    · by_cases hbc : b < c
      · simp [charsLe, lt_trans hab hbc]
      · by_cases hcb : c < b
        · simp [charsLe, hbc, hcb] at h2
        · have hbceq : b = c := le_antisymm (not_lt.mp hcb) (not_lt.mp hbc)
          subst hbceq
          simp [charsLe, hab]
    · by_cases hba : b < a
      · simp [charsLe, hab, hba] at h1
      · have habeq : a = b := le_antisymm (not_lt.mp hba) (not_lt.mp hab)
        subst habeq
        simp only [charsLe, hab, hba, if_neg] at h1
        by_cases hac : a < c
        · simp [charsLe, hac]
        · by_cases hca : c < a
          · simp [charsLe, hac, hca] at h2
          · have haceq : a = c := le_antisymm (not_lt.mp hca) (not_lt.mp hac)
            subst haceq
            simp only [charsLe, hac, hca, if_neg] at h2 ⊢
            exact charsLe_trans as bs cs h1 h2

instance : IsTotal Book bookIdLe :=
  ⟨fun a b => charsLe_total a.id.data b.id.data⟩

instance : IsTrans Book bookIdLe :=
  ⟨fun _ _ _ hab hbc => charsLe_trans _ _ _ hab hbc⟩

theorem sortById_sorted (store : BookStore) : List.Sorted bookIdLe (sortById store) :=
  List.sorted_insertionSort (fun a b => bookIdLe a b) store

theorem booksExists_eq_false_iff (store : BookStore) (id : String) :
    booksExists store id = false ↔ ∀ b ∈ store, b.id ≠ id := by
  simp [booksExists, List.any_eq_false]

theorem findBook_eq_none_iff (store : BookStore) (id : String) :
    findBook store id = none ↔ ∀ b ∈ store, b.id ≠ id := by
  simp [findBook, List.find?_eq_none]

theorem findUser_some_eq {users : UserStore} {id : Int} {un : String} {u : User}
    (h : findUserByIdAndUsername users id un = some u) : u.id = id ∧ u.username = un := by
  have hp := List.find?_some h
  simpa using hp

theorem findUser_none_iff (users : UserStore) (id : Int) (un : String) :
    findUserByIdAndUsername users id un = none ↔
      ¬ ∃ u ∈ users, u.id = id ∧ u.username = un := by
  simp [findUserByIdAndUsername, List.find?_eq_none]

theorem validateUser_ok_iff (users : UserStore) (id : Int) (un : String) :
    validateUserExistsInDB users id un = .ok () ↔
      ∃ u ∈ users, u.id = id ∧ u.username = un := by
  unfold validateUserExistsInDB
  cases hfind : findUserByIdAndUsername users id un with
  | none =>
    simp only [reduceCtorEq, false_iff]
    exact (findUser_none_iff users id un).mp hfind
  | some u =>
    have h := findUser_some_eq hfind
    simp only [h.1, h.2, ne_eq, not_true_eq_false, or_self, if_false, true_iff]
    exact ⟨u, List.mem_of_find?_eq_some hfind, h.1, h.2⟩

theorem validateUser_no_mismatch (users : UserStore) (id : Int) (un : String) :
    validateUserExistsInDB users id un ≠ .error "user data mismatch" := by
  cases hfind : findUserByIdAndUsername users id un with
  | none =>
    have heq : validateUserExistsInDB users id un = .error "user not found in database" := by
      unfold validateUserExistsInDB
      rw [hfind]
    rw [heq]
    intro hc
    injection hc with hc
    exact absurd hc (by decide)
  | some u =>
    have h := findUser_some_eq hfind
    have heq : validateUserExistsInDB users id un = .ok () := by
      unfold validateUserExistsInDB
      rw [hfind]
      simp [h.1, h.2]
    rw [heq]
    intro hc
    cases hc

theorem validateUser_error_eq {users : UserStore} {id : Int} {un : String} {e : String}
    (h : validateUserExistsInDB users id un = .error e) :
    e = "user not found in database" ∧ findUserByIdAndUsername users id un = none := by
  cases hfind : findUserByIdAndUsername users id un with
  | none =>
    have heq : validateUserExistsInDB users id un = .error "user not found in database" := by
      unfold validateUserExistsInDB
      rw [hfind]
    rw [heq] at h
    injection h with h
    exact ⟨h.symm, rfl⟩
  | some u =>
    have hu := findUser_some_eq hfind
    have heq : validateUserExistsInDB users id un = .ok () := by
      unfold validateUserExistsInDB
      rw [hfind]
      simp [hu.1, hu.2]
    rw [heq] at h
    cases h

theorem findUser_delete_none (users : UserStore) (id : Int) (un : String) :
    findUserByIdAndUsername (deleteUserRow users id un) id un = none := by
  rw [findUserByIdAndUsername, List.find?_eq_none]
  intro u hu
  unfold deleteUserRow at hu
  have h2 := (List.mem_filter.mp hu).2
  intro hc
  rw [hc] at h2
  exact absurd h2 (by decide)

theorem batchLoop_step (store : BookStore) (acc : List BookResponse)
    (book : Book) (rest : List Book) (fin : StreamEnd) :
    batchLoop store acc (book :: rest) fin =
      batchLoop (AddBook store book).1 (acc ++ [(AddBook store book).2]) rest fin := by
  by_cases h1 : book.id = ""
  · simp [batchLoop, AddBook, h1]
  · by_cases h2 : booksExists store book.id
    · simp [batchLoop, AddBook, h1, h2]
    · simp [batchLoop, AddBook, h1, h2]

theorem batchLoop_eof : ∀ (items : List Book) (store : BookStore) (acc : List BookResponse),
    batchLoop store acc items .eof =
      ((addBooksFold store items).1, .ok (acc ++ (addBooksFold store items).2))
  | [], store, acc => by simp [batchLoop, addBooksFold]
  | book :: rest, store, acc => by
    rw [batchLoop_step]
    rw [batchLoop_eof rest (AddBook store book).1 (acc ++ [(AddBook store book).2])]
    simp [addBooksFold]

theorem batchLoop_readError : ∀ (items : List Book) (store : BookStore)
    (acc : List BookResponse) (m : String),
    (batchLoop store acc items (.readError m)).2 =
      .error ("failed to receive book: " ++ m)
  | [], _, _, _ => rfl
  | book :: rest, store, acc, m => by
    rw [batchLoop_step]
    exact batchLoop_readError rest (AddBook store book).1 (acc ++ [(AddBook store book).2]) m

theorem addBooksFold_length : ∀ (items : List Book) (store : BookStore),
    (addBooksFold store items).2.length = items.length
  | [], _ => rfl
  | book :: rest, store => by
    simp [addBooksFold, addBooksFold_length rest]

/-- C1: the claim says every call to a protected method is gated by the
authorization check before its handler runs, with absent metadata,
absent authorization entry, or a malformed value failing
`Unauthenticated`.  The interceptor `CreateAuthInterceptor` does behave
that way, but `main` (server.go lines 218-220) builds the server with
`grpc.NewServer()` and never installs it: as wired, an `AddBook` call
with no metadata at all reaches the handler and succeeds, while the
defined-but-unwired interceptor would have rejected exactly that call
(and would have passed `Register` and `Login` through ungated). -/
theorem c1_main_wiring_ungated :
    mainServerDispatch Method.addBook none (fun _ => AddBook [] bAlpha) =
      ([bAlpha], ⟨"b1", "Book added successfully"⟩) ∧
    CreateAuthInterceptor (fun _ => none) [] jwtSecretDefault 0 Method.addBook none =
      .error "authentication failed: no metadata found" ∧
    CreateAuthInterceptor (fun _ => none) [] jwtSecretDefault 0 Method.register none =
      .ok none ∧
    CreateAuthInterceptor (fun _ => none) [] jwtSecretDefault 0 Method.login none =
      .ok none := by
  exact ⟨by decide, rfl, rfl, rfl⟩

/-- C3: the claim says a successful `Login` mints and returns a fresh
signed token, two successive successful logins returning two distinct,
independently valid tokens.  The handler (server.go lines 56-75) never
calls `GenerateJWT`: every successful login answers the constant string
"dummy_token", so two successful logins — even for two different
subjects — return the identical token.  (The persist-nothing part does
hold: the handler performs no store write, visible in `Login` returning
no store.) -/
theorem c3_login_constant_token :
    Login verifyEq usersAliceBob "alice" "secret1" =
      ⟨"dummy_token", "Login successful"⟩ ∧
    Login verifyEq usersAliceBob "bob" "secret2" =
      ⟨"dummy_token", "Login successful"⟩ ∧
    (Login verifyEq usersAliceBob "alice" "secret1").token =
      (Login verifyEq usersAliceBob "bob" "secret2").token := by
  refine ⟨?_, ?_, ?_⟩ <;> decide

/-- C7: `BatchAddBooks` treats each streamed item exactly by the
`AddBook` rules (same store transition, same appended response),
accumulates one result per item in receipt order, and returns the whole
ordered list when the client signals end-of-input; a per-item failure
never aborts the loop (the loop recurses on every item), while a
transport-level read failure aborts the whole batch with an `Internal`
error carrying no partial result list. -/
theorem c7_batch_stream_protocol (store : BookStore) (items : List Book)
    (book : Book) (rest : List Book) (acc : List BookResponse)
    (fin : StreamEnd) (m : String) :
    batchLoop store acc (book :: rest) fin =
      batchLoop (AddBook store book).1 (acc ++ [(AddBook store book).2]) rest fin ∧
    BatchAddBooks store items .eof =
      ((addBooksFold store items).1, .ok (addBooksFold store items).2) ∧
    (addBooksFold store items).2.length = items.length ∧
    (BatchAddBooks store items (.readError m)).2 =
      .error ("failed to receive book: " ++ m) := by
  refine ⟨batchLoop_step store acc book rest fin, ?_, addBooksFold_length items store,
    batchLoop_readError items store [] m⟩
  unfold BatchAddBooks
  rw [batchLoop_eof items store []]
  simp

/-- C2: for a structurally valid, correctly signed, non-expired token,
the interceptor's validate-then-store-lookup step succeeds exactly when
a `users` row with the token's id and username exists, it injects
exactly the token's claims, and deleting that row — token unchanged —
flips the outcome to an `Unauthenticated` failure. -/
theorem c2_revalidation_iff_subject_row (users : UserStore) (secret : String) (now : Int)
    (t : Token) (halg : t.alg.isHMAC = true) (hsig : t.sigKey = secret)
    (hexp : now < t.claims.expiresAt) (hnbf : t.claims.notBefore ≤ now) :
    (interceptorAuthStep users secret now (some t) = .ok t.claims ↔
      ∃ u ∈ users, u.id = t.claims.userID ∧ u.username = t.claims.username) ∧
    (∀ c, interceptorAuthStep users secret now (some t) = .ok c → c = t.claims) ∧
    interceptorAuthStep (deleteUserRow users t.claims.userID t.claims.username)
        secret now (some t) =
      .error "user validation failed: user not found in database" := by
  have hx : ¬ (t.claims.expiresAt ≤ now) := not_le.mpr hexp
  have hn : ¬ (now < t.claims.notBefore) := not_lt.mpr hnbf
  have hVJ : ValidateJWT secret now (some t) = (some t.claims, none) := by
    simp [ValidateJWT, halg, hsig, hx, hn]
  have hstep : ∀ us : UserStore, interceptorAuthStep us secret now (some t) =
      (match validateUserExistsInDB us t.claims.userID t.claims.username with
       | .error e => .error ("user validation failed: " ++ e)
       | .ok _ => .ok t.claims) := by
    intro us
    rw [interceptorAuthStep, hVJ]
  refine ⟨⟨?_, ?_⟩, ?_, ?_⟩
  · intro h
    rw [hstep users] at h
    cases hv : validateUserExistsInDB users t.claims.userID t.claims.username with
    | error e => rw [hv] at h; cases h
    | ok u => exact (validateUser_ok_iff users t.claims.userID t.claims.username).mp hv
  · intro hex
    have hok := (validateUser_ok_iff users t.claims.userID t.claims.username).mpr hex
    rw [hstep users, hok]
  · intro c h
    rw [hstep users] at h
    cases hv : validateUserExistsInDB users t.claims.userID t.claims.username with
    | error e => rw [hv] at h; cases h
    | ok u => rw [hv] at h; injection h with h; exact h.symm
  · have hnone := findUser_delete_none users t.claims.userID t.claims.username
    have hvd : validateUserExistsInDB (deleteUserRow users t.claims.userID t.claims.username)
        t.claims.userID t.claims.username = .error "user not found in database" := by
      unfold validateUserExistsInDB
      rw [hnone]
    rw [hstep (deleteUserRow users t.claims.userID t.claims.username), hvd]
    rfl

/-- Witness for C2 at a concrete store and token: a token minted for
`(1, "alice")` passes the step while the row exists, and fails after
the row is deleted. -/
theorem c2_witness :
    interceptorAuthStep [(⟨1, "alice", "h1"⟩ : User)] jwtSecretDefault 100 (some tokAlice) =
      .ok tokAlice.claims ∧
    interceptorAuthStep (deleteUserRow [(⟨1, "alice", "h1"⟩ : User)] 1 "alice")
        jwtSecretDefault 100 (some tokAlice) =
      .error "user validation failed: user not found in database" := by
  have h := c2_revalidation_iff_subject_row [⟨1, "alice", "h1"⟩] jwtSecretDefault 100 tokAlice
    (by decide) rfl (by decide) (by decide)
  exact ⟨h.1.mpr ⟨⟨1, "alice", "h1"⟩, by decide, by decide, by decide⟩, h.2.2⟩

/-- C4: a token whose MAC was made with a key other than the server's
is rejected whatever its claims say; a token whose header algorithm is
outside the expected HMAC family is rejected by the key function; and
every validation failure — malformed structure included — returns no
claims value. -/
theorem c4_validator_rejects_forgeries (secret : String) (now : Int) :
    (∀ t : Token, t.sigKey ≠ secret →
      (ValidateJWT secret now (some t)).1 = none ∧
      (ValidateJWT secret now (some t)).2.isSome = true) ∧
    (∀ t : Token, t.alg.isHMAC = false →
      ValidateJWT secret now (some t) = (none, some .badAlg)) ∧
    (∀ tok : Option Token, (ValidateJWT secret now tok).2.isSome = true →
      (ValidateJWT secret now tok).1 = none) ∧
    ValidateJWT secret now none = (none, some .malformed) := by
  refine ⟨?_, ?_, ?_, rfl⟩
  · intro t h
    by_cases halg : t.alg.isHMAC
    · simp [ValidateJWT, halg, h]
    · simp [ValidateJWT, halg]
  · intro t h
    simp [ValidateJWT, h]
  · intro tok h
    cases tok with
    | none => rfl
    | some t =>
      simp only [ValidateJWT] at h ⊢
      split_ifs at h ⊢ <;> simp_all

/-- Witness for C4 at concrete tokens: one minted with a wrong key, one
with an RS256 header, both carrying otherwise well-formed claims. -/
theorem c4_witness :
    (ValidateJWT jwtSecretDefault 0 (some tokForged)).1 = none ∧
    ValidateJWT jwtSecretDefault 0 (some tokBadAlg) = (none, some .badAlg) ∧
    (ValidateJWT jwtSecretDefault 0 (some tokForged)).1 = none := by
  have h := c4_validator_rejects_forgeries jwtSecretDefault 0
  refine ⟨(h.1 tokForged (by decide)).1, h.2.1 tokBadAlg (by decide), ?_⟩
  exact h.2.2.1 (some tokForged) (by decide)

/-- C9: a `Login` that fails because the username has no row and a
`Login` that fails because bcrypt verification rejects the password
return the identical `AuthResponse` — same message, empty token — so
the two causes are indistinguishable to the caller. -/
theorem c9_login_failure_indistinguishable (verify : String → String → Bool)
    (users : UserStore) (u1 p1 u2 p2 : String)
    (h1 : findUserByUsername users u1 = none)
    (h2 : ∃ u, findUserByUsername users u2 = some u ∧ verify u.passwordHash p2 = false) :
    Login verify users u1 p1 = Login verify users u2 p2 ∧
    Login verify users u2 p2 = ⟨"", "Invalid username or password"⟩ := by
  obtain ⟨u, hu, hv⟩ := h2
  have e1 : Login verify users u1 p1 = ⟨"", "Invalid username or password"⟩ := by
    simp [Login, h1]
  have e2 : Login verify users u2 p2 = ⟨"", "Invalid username or password"⟩ := by
    simp [Login, hu, hv]
  exact ⟨e1.trans e2.symm, e2⟩

/-- Witness for C9: an absent username and a present username with a
wrong password produce the same concrete response. -/
theorem c9_witness :
    Login verifyEq usersAliceBob "carol" "whatever" =
      Login verifyEq usersAliceBob "alice" "bad" ∧
    Login verifyEq usersAliceBob "alice" "bad" =
      ⟨"", "Invalid username or password"⟩ :=
  c9_login_failure_indistinguishable verifyEq usersAliceBob "carol" "whatever" "alice" "bad"
    (by decide) ⟨⟨1, "alice", "secret1"⟩, by decide, by decide⟩

/-- C10: whenever the id-and-username lookup returns a row, that row
matches the queried pair exactly, so the "user data mismatch" branch of
`validateUserExistsInDB` is unreachable, and the function fails exactly
when no matching row exists — always with the not-found error. -/
theorem c10_mismatch_unreachable (users : UserStore) (id : Int) (un : String) :
    (∀ u, findUserByIdAndUsername users id un = some u → u.id = id ∧ u.username = un) ∧
    validateUserExistsInDB users id un ≠ .error "user data mismatch" ∧
    (validateUserExistsInDB users id un = .ok () ↔
      ∃ u ∈ users, u.id = id ∧ u.username = un) ∧
    (∀ e, validateUserExistsInDB users id un = .error e →
      e = "user not found in database" ∧ findUserByIdAndUsername users id un = none) :=
  ⟨fun _ h => findUser_some_eq h, validateUser_no_mismatch users id un,
    validateUser_ok_iff users id un, fun _ h => validateUser_error_eq h⟩

/-- Witness for C10 at a concrete store: a present pair validates, and
a pair whose id does not match never yields the mismatch error. -/
theorem c10_witness :
    validateUserExistsInDB usersAliceBob 1 "alice" = .ok () ∧
    validateUserExistsInDB usersAliceBob 2 "alice" ≠ .error "user data mismatch" :=
  ⟨(c10_mismatch_unreachable usersAliceBob 1 "alice").2.2.1.mpr
      ⟨⟨1, "alice", "secret1"⟩, by decide, by decide, by decide⟩,
    (c10_mismatch_unreachable usersAliceBob 2 "alice").2.1⟩

/-- C5: starting from a store without the id, `AddBook` succeeds, a
second `AddBook` with the same non-empty id reports "already exists"
and changes nothing, and the stored row afterwards is the item from the
first call — the second call's title and author never land. -/
theorem c5_addBook_twice (store : BookStore) (b1 b2 : Book)
    (hid : b2.id = b1.id) (hne : b1.id ≠ "") (habs : booksExists store b1.id = false) :
    (AddBook store b1).2.message = "Book added successfully" ∧
    (AddBook (AddBook store b1).1 b2).2.message = "Book already exists" ∧
    (AddBook (AddBook store b1).1 b2).1 = (AddBook store b1).1 ∧
    findBook (AddBook (AddBook store b1).1 b2).1 b1.id = some b1 := by
  have h1 : AddBook store b1 = (store ++ [b1], ⟨b1.id, "Book added successfully"⟩) := by
    simp [AddBook, hne, habs]
  have hex : booksExists (store ++ [b1]) b2.id = true := by
    simp [booksExists, List.any_append, hid]
  have h2ne : b2.id ≠ "" := by
    rw [hid]
    exact hne
  have h2 : AddBook (store ++ [b1]) b2 = (store ++ [b1], ⟨b2.id, "Book already exists"⟩) := by
    simp [AddBook, h2ne, hex]
  have hfind : findBook (store ++ [b1]) b1.id = some b1 := by
    have hnone : List.find? (fun b => b.id == b1.id) store = none := by
      rw [List.find?_eq_none]
      intro b hb
      have := (booksExists_eq_false_iff store b1.id).mp habs b hb
      simpa using this
    rw [findBook, List.find?_append, hnone]
    simp
  have hfst : (AddBook store b1).1 = store ++ [b1] := by rw [h1]
  have e2 : AddBook (AddBook store b1).1 b2 =
      (store ++ [b1], ⟨b2.id, "Book already exists"⟩) := by
    rw [hfst, h2]
  refine ⟨by rw [h1], by rw [e2], by rw [e2, hfst], by rw [e2]; exact hfind⟩

/-- Witness for C5 at the empty store, the second call attempting to
overwrite the title and author. -/
theorem c5_witness :
    (AddBook [] bAlpha).2.message = "Book added successfully" ∧
    (AddBook (AddBook [] bAlpha).1 bAlphaPrime).2.message = "Book already exists" ∧
    (AddBook (AddBook [] bAlpha).1 bAlphaPrime).1 = (AddBook [] bAlpha).1 ∧
    findBook (AddBook (AddBook [] bAlpha).1 bAlphaPrime).1 bAlpha.id = some bAlpha :=
  c5_addBook_twice [] bAlpha bAlphaPrime rfl (by decide) (by decide)

theorem wrap32_eq_self {n : Int} (h1 : -2147483648 ≤ n) (h2 : n < 2147483648) :
    wrap32 n = n := by
  unfold wrap32
  omega

theorem ListBooks_eq (store : BookStore) (page pageSize : Int) :
    ListBooks store page pageSize =
      if wrap32 (wrap32 ((if page < 1 then 1 else page) - 1) *
          (if pageSize < 1 then 10 else pageSize)) < 0 then
        .error "OFFSET must not be negative"
      else
        .ok ⟨((sortById store).drop
            (wrap32 (wrap32 ((if page < 1 then 1 else page) - 1) *
              (if pageSize < 1 then 10 else pageSize))).toNat).take
            (if pageSize < 1 then 10 else pageSize).toNat,
          store.length⟩ := rfl

/-- C6, counterexample to the claim as stated: over a fixed 12-item
store, page 1 and page 2 with pageSize 5 both report totalCount 12, but
their union holds 10 items, so re-sorted it is not the full store. -/
theorem c6_union_counterexample :
    ListBooks books12 1 5 = .ok ⟨(sortById books12).take 5, 12⟩ ∧
    ListBooks books12 2 5 = .ok ⟨((sortById books12).drop 5).take 5, 12⟩ ∧
    ((sortById books12).take 5 ++ ((sortById books12).drop 5).take 5).length = 10 ∧
    sortById ((sortById books12).take 5 ++ ((sortById books12).drop 5).take 5) ≠
      sortById books12 := by
  exact ⟨rfl, rfl, by decide, by decide⟩

/-- C6 as amended: for an `int32` request, `ListBooks` normalizes
`page < 1` to 1 and `pageSize < 1` to 10 and computes the offset
`(page-1)*pageSize` in `int32` arithmetic.  When that product does not
overflow `int32`, it returns the slice of at most `pageSize` items
ordered by id ascending starting at that offset, with `totalCount` the
whole store's size; when the product wraps to a negative offset, the
call fails with a call-level error instead of returning a page; every
successful answer is a sorted slice of at most `pageSize` items with
the full total count.  Over the fixed 12-item store, pages 1 and 2 with
pageSize 5 are disjoint and their union, re-sorted by id, equals the
first ten items of the store sorted by id (not the full store), both
calls reporting totalCount 12. -/
theorem c6_pagination_amended (store : BookStore) (page pageSize : Int)
    (hpLo : -2147483648 ≤ page) (hpHi : page < 2147483648)
    (hsLo : -2147483648 ≤ pageSize) (hsHi : pageSize < 2147483648) :
    (((if page < 1 then 1 else page) - 1) * (if pageSize < 1 then 10 else pageSize) <
        2147483648 →
      ListBooks store page pageSize = .ok
        { books := ((sortById store).drop
              ((((if page < 1 then 1 else page) - 1) *
                (if pageSize < 1 then 10 else pageSize)).toNat)).take
            ((if pageSize < 1 then 10 else pageSize).toNat)
        , totalCount := store.length }) ∧
    (wrap32 (((if page < 1 then 1 else page) - 1) *
        (if pageSize < 1 then 10 else pageSize)) < 0 →
      ListBooks store page pageSize = .error "OFFSET must not be negative") ∧
    (∀ r, ListBooks store page pageSize = .ok r →
      List.Sorted bookIdLe r.books ∧
      r.totalCount = store.length ∧
      r.books.length ≤ (if pageSize < 1 then 10 else pageSize).toNat) ∧
    ListBooks books12 1 5 = .ok ⟨(sortById books12).take 5, 12⟩ ∧
    ListBooks books12 2 5 = .ok ⟨((sortById books12).drop 5).take 5, 12⟩ ∧
    (∀ b ∈ (sortById books12).take 5, b ∉ ((sortById books12).drop 5).take 5) ∧
    (sortById books12).take 5 ++ ((sortById books12).drop 5).take 5 =
      (sortById books12).take 10 := by
  have hp1 : (1 : Int) ≤ (if page < 1 then 1 else page) := by split <;> omega
  have hpHi' : (if page < 1 then 1 else page) < 2147483648 := by split <;> omega
  have hs1 : (1 : Int) ≤ (if pageSize < 1 then 10 else pageSize) := by split <;> omega
  have hsHi' : (if pageSize < 1 then 10 else pageSize) < 2147483648 := by split <;> omega
  have hw1 : wrap32 ((if page < 1 then 1 else page) - 1) =
      (if page < 1 then 1 else page) - 1 :=
    wrap32_eq_self (by omega) (by omega)
  refine ⟨?_, ?_, ?_, rfl, rfl, by decide, by decide⟩
  · intro hprod
    have h0 : 0 ≤ ((if page < 1 then 1 else page) - 1) *
        (if pageSize < 1 then 10 else pageSize) :=
      mul_nonneg (by omega) (by omega)
    have hw2 : wrap32 (wrap32 ((if page < 1 then 1 else page) - 1) *
        (if pageSize < 1 then 10 else pageSize)) =
        ((if page < 1 then 1 else page) - 1) * (if pageSize < 1 then 10 else pageSize) := by
      rw [hw1]
      exact wrap32_eq_self (by omega) hprod
    rw [ListBooks_eq, hw2, if_neg (not_lt.mpr h0)]
  · intro hneg
    rw [ListBooks_eq, hw1, if_pos hneg]
  · intro r hr
    rw [ListBooks_eq] at hr
    by_cases hneg : wrap32 (wrap32 ((if page < 1 then 1 else page) - 1) *
        (if pageSize < 1 then 10 else pageSize)) < 0
    · rw [if_pos hneg] at hr
      cases hr
    · rw [if_neg hneg] at hr
      injection hr with hr
      subst hr
      refine ⟨?_, rfl, List.length_take_le _ _⟩
      exact List.Pairwise.sublist ((List.take_sublist _ _).trans (List.drop_sublist _ _))
        (sortById_sorted store)

/-- Witness for C6: a page-3 request serves the third slice of the
concrete store, and an in-range `int32` request whose offset
computation wraps negative fails with the call-level error. -/
theorem c6_witness :
    ListBooks books12 3 5 = .ok ⟨((sortById books12).drop 10).take 5, 12⟩ ∧
    ListBooks books12 214748366 10 = .error "OFFSET must not be negative" := by
  have h3 := c6_pagination_amended books12 3 5
    (by decide) (by decide) (by decide) (by decide)
  have hw := c6_pagination_amended books12 214748366 10
    (by decide) (by decide) (by decide) (by decide)
  exact ⟨h3.1 (by decide), hw.2.1 (by decide)⟩

/-- C8: `UpdateBook` reports the required-id and not-found failures
leaving the store unchanged, and otherwise rewrites exactly the title
and author of the rows carrying that id; `DeleteBook` reports the same
two failures leaving the store unchanged, and otherwise removes exactly
the rows with that id; rows with other ids survive both operations
untouched. -/
theorem c8_update_delete_frame (store : BookStore) (book : Book) (id : String) :
    (book.id = "" → UpdateBook store book = (store, ⟨"", "Book ID is required"⟩)) ∧
    (book.id ≠ "" → booksExists store book.id = false →
      UpdateBook store book = (store, ⟨book.id, "Book not found"⟩)) ∧
    (book.id ≠ "" → booksExists store book.id = true →
      (UpdateBook store book).2 = ⟨book.id, "Book updated successfully"⟩ ∧
      (UpdateBook store book).1 = store.map (fun b =>
        if b.id = book.id then { b with title := book.title, author := book.author }
        else b)) ∧
    (∀ b ∈ store, b.id ≠ book.id → b ∈ (UpdateBook store book).1) ∧
    (id = "" → DeleteBook store id = (store, ⟨"", "Book ID is required"⟩)) ∧
    (id ≠ "" → booksExists store id = false →
      DeleteBook store id = (store, ⟨id, "Book not found"⟩)) ∧
    (id ≠ "" → booksExists store id = true →
      (DeleteBook store id).2 = ⟨id, "Book deleted successfully"⟩ ∧
      (DeleteBook store id).1 = store.filter (fun b => !(b.id == id)) ∧
      findBook (DeleteBook store id).1 id = none) ∧
    (∀ b ∈ store, b.id ≠ id → b ∈ (DeleteBook store id).1) := by
  have hUpFrame : ∀ b ∈ store, b.id ≠ book.id → b ∈ (UpdateBook store book).1 := by
    intro b hb hbne
    by_cases h0 : book.id = ""
    · simp only [UpdateBook, h0, if_pos rfl]
      exact hb
    · have hmem : b ∈ store.map (fun x =>
          if x.id = book.id then { x with title := book.title, author := book.author }
          else x) :=
        List.mem_map.mpr ⟨b, hb, if_neg hbne⟩
      unfold UpdateBook
      rw [if_neg h0]
      dsimp only
      split
      · exact hmem
      · exact hmem
  have hDelFrame : ∀ b ∈ store, b.id ≠ id → b ∈ (DeleteBook store id).1 := by
    intro b hb hbne
    have hmem : b ∈ store.filter (fun x => !(x.id == id)) :=
      List.mem_filter.mpr ⟨hb, by simp [hbne]⟩
    by_cases h0 : id = ""
    · simp only [DeleteBook, h0, if_pos rfl]
      exact hb
    · unfold DeleteBook
      rw [if_neg h0]
      dsimp only
      split
      · exact hmem
      · exact hmem
  refine ⟨?_, ?_, ?_, hUpFrame, ?_, ?_, ?_, hDelFrame⟩
  · intro h
    simp [UpdateBook, h]
  · intro hne habs
    have hfil : store.filter (fun b => b.id == book.id) = [] := by
      rw [List.filter_eq_nil_iff]
      intro b hb
      have := (booksExists_eq_false_iff store book.id).mp habs b hb
      simpa using this
    have hmap : store.map (fun b =>
        if b.id = book.id then { b with title := book.title, author := book.author }
        else b) = store := by
      have hcg : ∀ b ∈ store,
          (if b.id = book.id then
            ({ b with title := book.title, author := book.author } : Book)
          else b) = (fun x => x) b := by
        intro b hb
        exact if_neg ((booksExists_eq_false_iff store book.id).mp habs b hb)
      rw [List.map_congr_left hcg, List.map_id']
    simp [UpdateBook, hne, hfil, hmap]
  · intro hne hex
    have hlen : (store.filter (fun b => b.id == book.id)).length ≠ 0 := by
      unfold booksExists at hex
      obtain ⟨b, hb, hpb⟩ := List.any_eq_true.mp hex
      have hmem : b ∈ store.filter (fun b => b.id == book.id) :=
        List.mem_filter.mpr ⟨hb, hpb⟩
      intro hc
      exact List.ne_nil_of_mem hmem (List.length_eq_zero.mp hc)
    constructor
    · simp [UpdateBook, hne, hlen]
    · simp [UpdateBook, hne, hlen]
  · intro h
    simp [DeleteBook, h]
  · intro hne habs
    have hfil : store.filter (fun b => b.id == id) = [] := by
      rw [List.filter_eq_nil_iff]
      intro b hb
      have := (booksExists_eq_false_iff store id).mp habs b hb
      simpa using this
    have hkeep : store.filter (fun b => !(b.id == id)) = store := by
      rw [List.filter_eq_self]
      intro b hb
      have := (booksExists_eq_false_iff store id).mp habs b hb
      simpa using this
    simp [DeleteBook, hne, hfil, hkeep]
  · intro hne hex
    have hlen : (store.filter (fun b => b.id == id)).length ≠ 0 := by
      unfold booksExists at hex
      obtain ⟨b, hb, hpb⟩ := List.any_eq_true.mp hex
      have hmem : b ∈ store.filter (fun b => b.id == id) :=
        List.mem_filter.mpr ⟨hb, hpb⟩
      intro hc
      exact List.ne_nil_of_mem hmem (List.length_eq_zero.mp hc)
    have hres : (DeleteBook store id).1 = store.filter (fun b => !(b.id == id)) := by
      simp [DeleteBook, hne, hlen]
    refine ⟨by simp [DeleteBook, hne, hlen], hres, ?_⟩
    rw [hres, findBook, List.find?_eq_none]
    intro b hb
    have h2 := (List.mem_filter.mp hb).2
    intro hc
    rw [hc] at h2
    exact absurd h2 (by decide)

/-- Witness for C8 at a one-row store: empty-id and missing-id reports,
and a successful delete leaving no row behind. -/
theorem c8_witness :
    UpdateBook [bAlpha] ⟨"", "T", "U"⟩ = ([bAlpha], ⟨"", "Book ID is required"⟩) ∧
    UpdateBook [bAlpha] ⟨"zz", "T", "U"⟩ = ([bAlpha], ⟨"zz", "Book not found"⟩) ∧
    (DeleteBook [bAlpha] "b1").2 = ⟨"b1", "Book deleted successfully"⟩ ∧
    findBook (DeleteBook [bAlpha] "b1").1 "b1" = none := by
  have h := c8_update_delete_frame [bAlpha] (⟨"", "T", "U"⟩ : Book) "b1"
  have h2 := c8_update_delete_frame [bAlpha] (⟨"zz", "T", "U"⟩ : Book) "b1"
  have hdel := h.2.2.2.2.2.2.1 (by decide) (by decide)
  exact ⟨h.1 rfl, h2.2.1 (by decide) (by decide), hdel.1, hdel.2.2⟩
